import Mathlib

/-!
# Verification of the authentication / session-lifecycle core

A shallow embedding of the user-management service: the `UserController`
orchestrator (register, login, refresh, update, delete, password recovery,
email confirmation) together with the credential store and the refresh-session
store it drives.  The orchestrator functions are translated directly from
`src/controller/UserController.ts`; the credential store (`UserModel`) and the
session store (`SessionModel`) are not part of the sources, so those
operations are modelled from the specification (each such definition says so
in its doc comment).

Conventions of the embedding:
* Randomly generated values (verification tokens, recovery tokens, refresh
  tokens, password salts, fresh record ids) are drawn from a single counter
  `DB.fresh`; "cryptographically random" is modelled as "fresh, never equal
  to any previously issued value".
* Timestamps are `Int` milliseconds since the epoch.
* The outbound notification channel is modelled as an append-only job list.
* JavaScript truthiness of an optional string (`undefined` and `""` are
  falsy) is modelled by `truthy`.
* Fallible protocol calls return `Except Err (result × DB)`; an `error`
  result leaves the store untouched.
-/

deriving instance DecidableEq for Except

namespace AuthService

/-- A `{type, message}` notification returned to the API layer. -/
structure Notification where
  type : String
  message : String
deriving Repr, DecidableEq

/-- Modelled from the spec: the salted one-way password hash produced by the
credential store (`UserModel` is not among the sources).  Verification
compares the candidate against the password the hash was derived from; the
salt records that each hashing call uses a fresh salt. -/
structure HashedPassword where
  salt : Nat
  source : String
deriving Repr, DecidableEq

/-- Modelled from the spec: hashing a password with a fresh salt. -/
def hashPassword (pw : String) (salt : Nat) : HashedPassword := ⟨salt, pw⟩

/-- Modelled from the spec: constant-time comparison of a candidate password
against a stored hash. -/
def checkPassword (candidate : String) (h : HashedPassword) : Bool :=
  candidate == h.source

/-- A stored user record (the `User` document). -/
structure UserRec where
  _id : Nat
  username : String
  email : String
  password : HashedPassword
  verified : Bool
  verificationToken : Option Nat
  passwordRecoveryToken : Option Nat
  passwordRecoveryRequestDate : Option Int
deriving Repr, DecidableEq

/-- A stored refresh-session record (the `Session` document). -/
structure SessionRec where
  userId : Nat
  refreshToken : Nat
  expiryDate : Int
deriving Repr, DecidableEq

/-- An outbound email job handed to the fire-and-forget queue. -/
structure EmailJob where
  recipient : String
  subject : String
  token : Option Nat
deriving Repr, DecidableEq

/-- The persistent state: user collection, session collection, the freshness
counter backing every generated token / salt / id, and the outbound job
queue. -/
structure DB where
  users : List UserRec
  sessions : List SessionRec
  fresh : Nat
  jobs : List EmailJob
deriving Repr, DecidableEq

/-- The domain error kinds of `src/error/ErrorTypes`. -/
inductive Err where
  | UserNotFound (msg : String)
  | WrongPasswordError (msg : String)
  | UserValidationError (msg : String)
  | UsernameAlreadyExistsError (msg : String)
  | EmailAlreadyExistsError (msg : String)
  | AlreadyLoggedInError (msg : String)
  | UpdatePasswordTooLateError (msg : String)
  | EmailAlreadyConfirmedError (msg : String)
deriving Repr, DecidableEq

/-- The decoded, verified claims of a presented bearer token (`req.user`). -/
structure AuthContext where
  _id : Nat
  username : String
  email : String
  verified : Bool
deriving Repr, DecidableEq

/-- The request context seen by the orchestrator: the optional authenticated
user and the optional `refreshToken` cookie. -/
structure Request where
  user : Option AuthContext
  refreshTokenCookie : Option Nat
deriving Repr, DecidableEq

/-- JavaScript truthiness of an optional string: `undefined` and `""` are
falsy. -/
def truthy : Option String → Bool
  | none => false
  | some s => !(s == "")

/-! ## String helpers (executable substring / strip, used by the
error-translation code of `UserController`) -/

/-- `charsStartWith pat l` : `pat` is an initial segment of `l`. -/
def charsStartWith : List Char → List Char → Bool
  | [], _ => true
  | _ :: _, [] => false
  | a :: as, b :: bs => a == b && charsStartWith as bs

/-- `charsContain pat l` : `pat` occurs contiguously inside `l`. -/
def charsContain (pat : List Char) : List Char → Bool
  | [] => charsStartWith pat []
  | b :: bs => charsStartWith pat (b :: bs) || charsContain pat bs

/-- `strContains s pat` models JavaScript `s.includes(pat)`. -/
def strContains (s pat : String) : Bool :=
  charsContain pat.toList s.toList

/-- Remove the first occurrence of `pat` from a character list. -/
def charsStripFirst (pat : List Char) : List Char → List Char
  | [] => []
  | c :: cs =>
    if charsStartWith pat (c :: cs) then (c :: cs).drop pat.length
    else c :: charsStripFirst pat cs

/-- `stripFirst pat s` models JavaScript `s.replace(pat, '')` (first
occurrence only). -/
def stripFirst (pat : String) (s : String) : String :=
  String.mk (charsStripFirst pat.toList s.toList)

/-! ## Credential store (`UserModel`) — modelled from the spec -/

/-- Modelled from the spec: `getUser {email}` / `userExists {email}` lookup. -/
def findByEmail (db : DB) (e : String) : Option UserRec :=
  db.users.find? (fun u => u.email == e)

/-- Modelled from the spec: lookup by username. -/
def findByUsername (db : DB) (un : String) : Option UserRec :=
  db.users.find? (fun u => u.username == un)

/-- Modelled from the spec: lookup by `_id`. -/
def findById (db : DB) (i : Nat) : Option UserRec :=
  db.users.find? (fun u => u._id == i)

/-- Modelled from the spec: lookup by `verificationToken`. -/
def findByVerificationToken (db : DB) (t : Nat) : Option UserRec :=
  db.users.find? (fun u => u.verificationToken == some t)

/-- Modelled from the spec: lookup by `passwordRecoveryToken`. -/
def findByRecoveryToken (db : DB) (t : Nat) : Option UserRec :=
  db.users.find? (fun u => u.passwordRecoveryToken == some t)

/-- A field patch handed to `User.updateUser`: `none` leaves the field
untouched; for the nullable fields `some none` clears the field. -/
structure UserPatch where
  password : Option String := none
  email : Option String := none
  username : Option String := none
  verified : Option Bool := none
  verificationToken : Option (Option Nat) := none
  passwordRecoveryToken : Option (Option Nat) := none
  passwordRecoveryRequestDate : Option (Option Int) := none
deriving Repr, DecidableEq

/-- Modelled from the spec: applying a patch to one user record; a patched
password is stored hashed under the fresh salt `salt`. -/
def applyPatch (salt : Nat) (p : UserPatch) (u : UserRec) : UserRec :=
  { u with
    password := match p.password with
      | some pw => hashPassword pw salt
      | none => u.password
    email := p.email.getD u.email
    username := p.username.getD u.username
    verified := p.verified.getD u.verified
    verificationToken := p.verificationToken.getD u.verificationToken
    passwordRecoveryToken := p.passwordRecoveryToken.getD u.passwordRecoveryToken
    passwordRecoveryRequestDate :=
      p.passwordRecoveryRequestDate.getD u.passwordRecoveryRequestDate }

/-- Modelled from the spec: `User.updateUser(filter, patch)` — every record
matched by the filter receives the patch; one freshness-counter tick supplies
the salt for a possibly patched password. -/
def updateUserWhere (db : DB) (flt : UserRec → Bool) (p : UserPatch) : DB :=
  { db with
    users := db.users.map (fun u => if flt u then applyPatch db.fresh p u else u)
    fresh := db.fresh + 1 }

/-- Modelled from the spec: `User.isPasswordValid({email}, candidate)` —
`false` both when no user matches and when the hash comparison fails; an
absent candidate also verifies as `false`. -/
def isPasswordValidByEmail (db : DB) (e : String) (candidate : Option String) : Bool :=
  match findByEmail db e, candidate with
  | some u, some c => checkPassword c u.password
  | _, _ => false

/-- Modelled from the spec: `User.isPasswordValid({_id}, candidate)`. -/
def isPasswordValidById (db : DB) (i : Nat) (candidate : String) : Bool :=
  match findById db i with
  | some u => checkPassword candidate u.password
  | none => false

/-- Modelled from the spec: `generateToken` — a fresh opaque random value,
drawn from the freshness counter. -/
def generateToken (db : DB) : Nat × DB :=
  (db.fresh, { db with fresh := db.fresh + 1 })

/-- The persistence layer's free-text duplicate-key message for a colliding
field, in MongoDB's wording (the wording observed by the integration tests). -/
def mongoDupMessage (f : String) : String :=
  "E11000 duplicate key error collection: users index: " ++ f ++ "_1 dup key"

/-- The structured uniqueness-constraint failure signal of the persistence
contract (spec §6): the colliding field name as data, alongside the free-text
message. -/
structure DupKeyFailure where
  field : String
  message : String
deriving Repr, DecidableEq

/-- Modelled from the spec: `User.createUser` — persistence insert guarded by
the uniqueness constraints on `username` and `email`; the password is stored
hashed under a fresh salt, and a constraint violation surfaces as the
persistence layer's free-text message. -/
def dbCreateUser (db : DB) (username email pw : String) (vtok : Nat) :
    Except String (UserRec × DB) :=
  if db.users.any (fun v => v.username == username) then
    .error (mongoDupMessage "username")
  else if db.users.any (fun v => v.email == email) then
    .error (mongoDupMessage "email")
  else
    let u : UserRec :=
      ⟨db.fresh, username, email, hashPassword pw (db.fresh + 1), false,
        some vtok, none, none⟩
    .ok (u, { db with users := db.users ++ [u], fresh := db.fresh + 2 })

/-- Modelled from the spec: the uniqueness-constraint check the persistence
layer performs on `User.updateUser` when the patch renames `username` or
`email` (a collision with a *different* record); returns the free-text
failure message. -/
def dbUpdateConflict (db : DB) (i : Nat) (username email : Option String) :
    Option String :=
  if (match username with
      | some un => db.users.any (fun v => !(v._id == i) && v.username == un)
      | none => false) then
    some (mongoDupMessage "username")
  else if (match email with
      | some e => db.users.any (fun v => !(v._id == i) && v.email == e)
      | none => false) then
    some (mongoDupMessage "email")
  else none

/-! ## Session store (`SessionModel`) — modelled from the spec -/

/-- Modelled from the spec: the fixed refresh-session lifetime
(milliseconds). -/
def sessionDuration : Int := 604800000

/-- The bearer-token lifetime (milliseconds). -/
def authTokenDuration : Int := 3600000

/-- Modelled from the spec: `Session.createSession(userId)` — a fresh random
refresh token, expiry `now + sessionDuration`. -/
def createSession (db : DB) (userId : Nat) (now : Int) : SessionRec × DB :=
  let s : SessionRec := ⟨userId, db.fresh, now + sessionDuration⟩
  (s, { db with sessions := db.sessions ++ [s], fresh := db.fresh + 1 })

/-- Modelled from the spec: `Session.removeSession(userId, refreshToken)` —
idempotent delete of the matching session. -/
def removeSession (db : DB) (userId tok : Nat) : DB :=
  { db with
    sessions := db.sessions.filter
      (fun s => !(s.userId == userId && s.refreshToken == tok)) }

/-- Modelled from the spec: `Session.removeOutdatedSessions(userId)` — purge
this user's sessions whose expiry has passed. -/
def removeOutdatedSessions (db : DB) (userId : Nat) (now : Int) : DB :=
  { db with
    sessions := db.sessions.filter
      (fun s => !(s.userId == userId && decide (s.expiryDate ≤ now))) }

/-- Modelled from the spec: `Session.isValid(userId, refreshToken)` — true
iff a session exists for the pair and has not expired; an absent cookie is
never valid. -/
def sessionIsValid (db : DB) (userId : Nat) (tok : Option Nat) (now : Int) : Bool :=
  match tok with
  | none => false
  | some t => db.sessions.any
      (fun s => s.userId == userId && s.refreshToken == t && decide (now < s.expiryDate))

/-- Modelled from the spec: `Session.updateSession(userId, refreshToken)` —
atomic rotation: the matched session's token and expiry are replaced by fresh
ones, `none` when no session matches. -/
def updateSession (db : DB) (userId tok : Nat) (now : Int) :
    Option (SessionRec × DB) :=
  if db.sessions.any (fun s => s.userId == userId && s.refreshToken == tok) then
    let s : SessionRec := ⟨userId, db.fresh, now + sessionDuration⟩
    some (s,
      { db with
        sessions :=
          db.sessions.filter (fun s => !(s.userId == userId && s.refreshToken == tok))
            ++ [s]
        fresh := db.fresh + 1 })
  else none

/-- Modelled from the spec:
`Session.getUserAndSessionFromRefreshToken(refreshToken)` — reverse lookup,
empty rather than erroring when the token is unknown or the session
expired. -/
def getUserAndSessionFromRefreshToken (db : DB) (tok : Option Nat) (now : Int) :
    Option (UserRec × SessionRec) :=
  match tok with
  | none => none
  | some t =>
    match db.sessions.find? (fun s => s.refreshToken == t && decide (now < s.expiryDate)) with
    | none => none
    | some s =>
      match findById db s.userId with
      | none => none
      | some u => some (u, s)

/-- A signed bearer token together with its expiry (the Token Issuer is
stateless; the claims embedded are the public projection of the user). -/
structure SignedPayload where
  user : UserRec
  expiryDate : Int
deriving Repr, DecidableEq

/-- Modelled from the spec: `User.sign({email}, password, key)` — lookup by
email, verify the password, issue a token; a missing user or a failed hash
comparison both raise `NotFoundError("Wrong credentials!")` (spec §4.4 / §8:
login failure runs are indistinguishable). -/
def userSignByEmail (db : DB) (e pw : String) (now : Int) : Except Err SignedPayload :=
  match findByEmail db e with
  | none => .error (.UserNotFound "Wrong credentials!")
  | some u =>
    if checkPassword pw u.password then .ok ⟨u, now + authTokenDuration⟩
    else .error (.UserNotFound "Wrong credentials!")

/-- Modelled from the spec: `User.sign({username}, password, key)`. -/
def userSignByUsername (db : DB) (un pw : String) (now : Int) : Except Err SignedPayload :=
  match findByUsername db un with
  | none => .error (.UserNotFound "Wrong credentials!")
  | some u =>
    if checkPassword pw u.password then .ok ⟨u, now + authTokenDuration⟩
    else .error (.UserNotFound "Wrong credentials!")

/-- Modelled from the spec: `User.refreshAuthToken({_id}, key)` — re-issue a
bearer token without re-checking the password. -/
def refreshAuthToken (u : UserRec) (now : Int) : SignedPayload :=
  ⟨u, now + authTokenDuration⟩

/-- Append an outbound email job (the fire-and-forget `agenda.now('email',…)`
dispatch). -/
def enqueueJob (db : DB) (j : EmailJob) : DB :=
  { db with jobs := db.jobs ++ [j] }

/-- The account-verification email job built by `sendConfirmationEmail`. -/
def confirmationJob (recipient : String) (tok : Option Nat) : EmailJob :=
  ⟨recipient, "Activate your account", tok⟩

/-- The password-recovery email job built by `sendPasswordRecoveryEmail`. -/
def recoveryJob (recipient : String) (tok : Nat) : EmailJob :=
  ⟨recipient, "Password Recovery", some tok⟩

/-! ## Auth Orchestrator — `src/controller/UserController.ts` -/

/-- The duplicate-key translation of `createUser`'s catch block
(`UserController.ts` lines 170–178): it inspects only the free-text message
of the persistence failure. -/
def translateCreateError (message : String) : Err :=
  if strContains message "username" && strContains message "duplicate key" then
    .UsernameAlreadyExistsError "Username already exists"
  else if strContains message "email" && strContains message "duplicate key" then
    .EmailAlreadyExistsError "Email already exists"
  else
    .UserValidationError (stripFirst "user validation failed: email: Path " message)

/-- The duplicate-key translation of `updateUser`'s catch block
(`UserController.ts` lines 306–314); same message inspection, different
fallback strip. -/
def translateUpdateError (message : String) : Err :=
  if strContains message "username" && strContains message "duplicate key" then
    .UsernameAlreadyExistsError "Username already exists"
  else if strContains message "email" && strContains message "duplicate key" then
    .EmailAlreadyExistsError "Email already exists"
  else
    .UserValidationError (stripFirst "user validation failed: email: " message)

/-- The registration input (`UserRegisterInput`); `password` is optional
because the controller itself guards against its absence. -/
structure NewUser where
  username : String
  email : String
  password : Option String
deriving Repr, DecidableEq

/-- `createUser` (Register), `UserController.ts` lines 146–179: assign a
fresh verification token, enforce the password policy, insert through the
credential store, translate duplicate-key failures, enqueue the confirmation
email. -/
def createUser (db0 : DB) (u : NewUser) : Except Err (List Notification × DB) :=
  let vtok := (generateToken db0).1
  let db := (generateToken db0).2
  match u.password with
  | none => .error (.UserValidationError "Please provide a password!")
  | some p =>
    if p == "" then .error (.UserValidationError "Please provide a password!")
    else if p.length < 8 then
      .error (.UserValidationError "The password must contain at least 8 characters!")
    else
      match dbCreateUser db u.username u.email p vtok with
      | .error m => .error (translateCreateError m)
      | .ok (newU, db1) =>
        .ok ([⟨"success", "User created!"⟩,
              ⟨"info", "You will receive a confirmation link at your email address in a few minutes."⟩],
             enqueueJob db1 (confirmationJob newU.email (some vtok)))

/-- `login`, `UserController.ts` lines 347–374: resolve the login string as
email first, else username; sign (which verifies the password); drop the
presented cookie's session; purge outdated sessions; create a fresh session
whose refresh token becomes the new cookie. -/
def login (db0 : DB) (req : Request) (loginStr password : String) (now : Int) :
    Except Err ((SignedPayload × Nat) × DB) :=
  match
    (if (findByEmail db0 loginStr).isSome then
      userSignByEmail db0 loginStr password now
    else if (findByUsername db0 loginStr).isSome then
      userSignByUsername db0 loginStr password now
    else .error (.UserNotFound "Wrong credentials!")) with
  | .error e => .error e
  | .ok payload =>
    let db1 := match req.refreshTokenCookie with
      | some c => removeSession db0 payload.user._id c
      | none => db0
    let db2 := removeOutdatedSessions db1 payload.user._id now
    let sdb := createSession db2 payload.user._id now
    .ok ((payload, sdb.1.refreshToken), sdb.2)

/-- `refreshTokens` (the refresh protocol), `UserController.ts` lines
459–470: reverse-lookup the presented cookie, require the session unexpired,
re-issue a bearer token without a password check, rotate the session and set
the new cookie. -/
def refreshTokens (db : DB) (req : Request) (now : Int) :
    Except Err ((SignedPayload × Nat) × DB) :=
  match getUserAndSessionFromRefreshToken db req.refreshTokenCookie now with
  | none => .error (.UserNotFound "Please login!")
  | some (user, session) =>
    if now < session.expiryDate then
      let payload := refreshAuthToken user now
      match updateSession db user._id session.refreshToken now with
      | some (s, db1) => .ok ((payload, s.refreshToken), db1)
      | none => .error (.UserNotFound "Please login!")
    else .error (.UserNotFound "Please login!")

/-- `recoverPassword`, `UserController.ts` lines 218–244: password policy,
token lookup, the 60-minute window on the recorded request date (the
JavaScript NaN comparison for an absent date falls into the accepting
branch), then update the password and clear token and date. -/
def recoverPassword (db : DB) (password : String) (tok : Nat) (now : Int) :
    Except Err (List Notification × DB) :=
  if password.length < 8 then
    .error (.UserValidationError "The password must contain at least 8 characters!")
  else
    match findByRecoveryToken db tok with
    | none => .error (.UserNotFound "Unvalid token!")
    | some u =>
      let late := match u.passwordRecoveryRequestDate with
        | some d => decide (60 ≤ (now - d).natAbs / 1000 / 60)
        | none => false
      if late then
        .error (.UpdatePasswordTooLateError "This link has expired, please ask a new one.")
      else
        .ok ([⟨"success", "Your password is updated!"⟩],
          updateUserWhere db (fun v => v._id == u._id)
            { password := some password,
              passwordRecoveryToken := some none,
              passwordRecoveryRequestDate := some none })

/-- `confirmEmail`, `UserController.ts` lines 113–135: an unknown
verification token is swallowed into the rendered "This link is not valid!"
notification (no exception escapes); a known token clears
`verificationToken` and sets `verified` on the matched user's email. -/
def confirmEmail (db : DB) (tok : Nat) : DB × List Notification :=
  match findByVerificationToken db tok with
  | none => (db, [⟨"error", "This link is not valid!"⟩])
  | some u =>
    (updateUserWhere db (fun v => v.email == u.email)
      { verified := some true, verificationToken := some none },
     [⟨"success", "You are now verified!"⟩])

/-- `sendPasswordRecoveryEmail`, `UserController.ts` lines 383–423: the
generic notification is built first; an authenticated caller fails with
`AlreadyLoggedInError`; an unknown email returns the generic notification
unchanged; a known email gets a fresh recovery token, the recorded request
date, and a recovery email job. -/
def sendPasswordRecoveryEmail (db0 : DB) (email : String) (req : Request) (now : Int) :
    Except Err (List Notification × DB) :=
  let notifications : List Notification :=
    [⟨"info", "If your email address exists in our database, you will receive a password recovery link at your email address in a few minutes."⟩]
  match req.user with
  | some _ => .error (.AlreadyLoggedInError "Oups, you are already logged in!")
  | none =>
    match findByEmail db0 email with
    | none => .ok (notifications, db0)
    | some _ =>
      let tok := (generateToken db0).1
      let db1 := (generateToken db0).2
      let db2 := updateUserWhere db1 (fun v => v.email == email)
        { passwordRecoveryToken := some (some tok),
          passwordRecoveryRequestDate := some (some now) }
      .ok (notifications, enqueueJob db2 (recoveryJob email tok))

/-- The update input (`UserUpdateInput`); `verified` and `verificationToken`
are uneditable fields stripped from the GraphQL input type, so only the
controller itself can set them. -/
structure UserUpdates where
  password : Option String := none
  previousPassword : Option String := none
  email : Option String := none
  username : Option String := none
deriving Repr, DecidableEq

/-- The write phase of `updateUser` (`UserController.ts` lines 278–314): the
verified-email demotion decided before the write supplies `vtokOpt`; the
persistence uniqueness constraint is translated through the catch block; on
success the updated record is re-read and, on demotion, the confirmation
email job is enqueued alongside the extra info notification. -/
def updateApply (db0 : DB) (ctx : AuthContext) (upd : UserUpdates)
    (vtokOpt : Option Nat) : Except Err (UserRec × List Notification × DB) :=
  match dbUpdateConflict db0 ctx._id upd.username upd.email with
  | some msg => .error (translateUpdateError msg)
  | none =>
    let patch : UserPatch :=
      { password := upd.password,
        email := upd.email,
        username := upd.username,
        verified := match vtokOpt with
          | some _ => some false
          | none => none,
        verificationToken := vtokOpt.map some }
    let db1 := updateUserWhere db0 (fun u => u._id == ctx._id) patch
    match findById db1 ctx._id with
    | none => .error (.UserNotFound "User not found, please log in!")
    | some newU =>
      match vtokOpt with
      | some t =>
        .ok (newU,
          [⟨"success", "User information updated!"⟩,
           ⟨"info", "You will receive a confirmation link at your email address in a few minutes."⟩],
          enqueueJob db1 (confirmationJob newU.email (some t)))
      | none => .ok (newU, [⟨"success", "User information updated!"⟩], db1)

/-- `updateUser` (UpdateMe), `UserController.ts` lines 257–315: requires an
authenticated context and a currently valid session; when a password change
is requested with `password !== previousPassword` the previous password must
verify and the new one must satisfy the length policy (both checks are
skipped when the two fields are equal); a truthy email on a verified caller
triggers the demotion handled by `updateApply`. -/
def updateUser (db : DB) (req : Request) (upd : UserUpdates) (now : Int) :
    Except Err (UserRec × List Notification × DB) :=
  match req.user with
  | none => .error (.UserNotFound "Please login!")
  | some ctx =>
    if !(sessionIsValid db ctx._id req.refreshTokenCookie now) then
      .error (.UserNotFound "Please login!")
    else if truthy upd.password && !(upd.password == upd.previousPassword) then
      if !(isPasswordValidByEmail db ctx.email upd.previousPassword) then
        .error (.WrongPasswordError "Your previous password is wrong!")
      else if (upd.password.getD "").length < 8 then
        .error (.UserValidationError "The password must contain at least 8 characters!")
      else if ctx.verified && truthy upd.email then
        updateApply (generateToken db).2 ctx upd (some (generateToken db).1)
      else updateApply db ctx upd none
    else if ctx.verified && truthy upd.email then
      updateApply (generateToken db).2 ctx upd (some (generateToken db).1)
    else updateApply db ctx upd none

/-- `deleteUser` (DeleteMe), `UserController.ts` lines 324–336: requires an
authenticated context and the correct password; removes the user record
(sessions are not cascaded here). -/
def deleteUser (db : DB) (password : String) (req : Request) :
    Except Err (List Notification × DB) :=
  match req.user with
  | none => .error (.UserNotFound "Please login!")
  | some ctx =>
    if !(isPasswordValidById db ctx._id password) then
      .error (.WrongPasswordError "You entered a wrong password")
    else
      .ok ([⟨"success", "Your account has been deleted."⟩],
        { db with users := db.users.filter (fun u => !(u._id == ctx._id)) })

/-- `resendConfirmationEmail`, `UserController.ts` lines 188–208. -/
def resendConfirmationEmail (db : DB) (req : Request) :
    Except Err (List Notification × DB) :=
  match req.user with
  | none => .error (.UserNotFound "Please login!")
  | some ctx =>
    match findById db ctx._id with
    | none => .error (.UserNotFound "User not found, please log in!")
    | some u =>
      if u.verified then
        .error (.EmailAlreadyConfirmedError "Your email adress has already been confirmed.")
      else
        .ok ([⟨"success", "You will receive a confirmation link at your email address in a few minutes."⟩],
          enqueueJob db (confirmationJob ctx.email u.verificationToken))

/-! ## Helper lemmas -/

theorem applyPatch_id (salt : Nat) (p : UserPatch) (u : UserRec) :
    (applyPatch salt p u)._id = u._id := rfl

theorem findById_updateUserWhere (db : DB) (flt : UserRec → Bool) (p : UserPatch) (i : Nat) :
    findById (updateUserWhere db flt p) i =
      (findById db i).map (fun u => if flt u then applyPatch db.fresh p u else u) := by
  unfold findById updateUserWhere
  rw [List.find?_map]
  have hfun : ((fun u : UserRec => u._id == i) ∘
      fun u => if flt u then applyPatch db.fresh p u else u) = fun u => u._id == i := by
    funext x
    by_cases h : flt x <;> simp [h, Function.comp, applyPatch_id]
  rw [hfun]

theorem users_updateUserWhere (db : DB) (flt : UserRec → Bool) (p : UserPatch) :
    (updateUserWhere db flt p).users =
      db.users.map (fun u => if flt u then applyPatch db.fresh p u else u) := rfl

/-- The 60-minute window test of `recoverPassword`, reduced to milliseconds
when the clock did not run backwards. -/
theorem recover_late_iff (now d : Int) (h : d ≤ now) :
    (60 ≤ (now - d).natAbs / 1000 / 60) ↔ 3600000 ≤ now - d := by omega

/-! ## Claims -/

/-- **C2.** A `recoverPassword` call with a known recovery token, a recorded
request date and a new password of at least 8 characters is accepted (the
password is updated and the success notification returned) exactly when
strictly less than 60 minutes have elapsed since the recorded request date;
at or after 60 minutes it fails with `UpdatePasswordTooLateError`. -/
theorem recoverPassword_window (db : DB) (pw : String) (tok : Nat) (now d : Int)
    (u : UserRec)
    (hfind : findByRecoveryToken db tok = some u)
    (hdate : u.passwordRecoveryRequestDate = some d)
    (hlen : 8 ≤ pw.length)
    (hord : d ≤ now) :
    (now - d < 3600000 →
      recoverPassword db pw tok now =
        .ok ([⟨"success", "Your password is updated!"⟩],
          updateUserWhere db (fun v => v._id == u._id)
            { password := some pw, passwordRecoveryToken := some none,
              passwordRecoveryRequestDate := some none })) ∧
    (3600000 ≤ now - d →
      recoverPassword db pw tok now =
        .error (.UpdatePasswordTooLateError "This link has expired, please ask a new one.")) := by
  have hnl : ¬ (pw.length < 8) := by omega
  constructor
  · intro hlt
    have hl : ¬ (60 ≤ (now - d).natAbs / 1000 / 60) := by omega
    simp [recoverPassword, hnl, hfind, hdate, hl]
  · intro hge
    have hl : 60 ≤ (now - d).natAbs / 1000 / 60 := by omega
    simp [recoverPassword, hnl, hfind, hdate, hl]

/-- **C3.** A successful `recoverPassword` call stores the new password
(hashed) on the matched user and clears `passwordRecoveryToken` and
`passwordRecoveryRequestDate`, so the consumed token matches no user any
more and a second presentation of it can never succeed. -/
theorem recoverPassword_single_use (db db' : DB) (pw : String) (tok : Nat) (now : Int)
    (u : UserRec) (ns : List Notification)
    (hfind : findByRecoveryToken db tok = some u)
    (hid : findById db u._id = some u)
    (huniq : ∀ v ∈ db.users, v.passwordRecoveryToken = some tok → v = u)
    (hrun : recoverPassword db pw tok now = .ok (ns, db')) :
    (∃ u', findById db' u._id = some u' ∧ checkPassword pw u'.password = true ∧
       u'.passwordRecoveryToken = none ∧ u'.passwordRecoveryRequestDate = none) ∧
    findByRecoveryToken db' tok = none ∧
    (∀ pw2 now2 r, recoverPassword db' pw2 tok now2 ≠ .ok r) := by
  have hdb : db' = updateUserWhere db (fun v => v._id == u._id)
      { password := some pw, passwordRecoveryToken := some none,
        passwordRecoveryRequestDate := some none } := by
    unfold recoverPassword at hrun
    rw [hfind] at hrun
    split at hrun
    · exact absurd hrun (by simp)
    · split at hrun
      next heq => exact absurd heq (by simp)
      next v heq =>
        rw [Option.some.injEq] at heq
        subst heq
        split at hrun
        all_goals dsimp only at hrun
        all_goals split at hrun
        all_goals first
          | (rw [Except.ok.injEq, Prod.mk.injEq] at hrun
             exact hrun.2.symm)
          | exact absurd hrun (by simp)
  subst hdb
  have hnone : findByRecoveryToken
      (updateUserWhere db (fun v => v._id == u._id)
        { password := some pw, passwordRecoveryToken := some none,
          passwordRecoveryRequestDate := some none }) tok = none := by
    unfold findByRecoveryToken
    rw [users_updateUserWhere, List.find?_eq_none]
    intro x hx
    rcases List.mem_map.mp hx with ⟨v, hv, rfl⟩
    by_cases hvid : (v._id == u._id) = true
    · simp [hvid, applyPatch]
    · simp only [hvid]
      simp only [Bool.false_eq_true, if_false]
      intro hcontra
      have : v = u := huniq v hv (by simpa using hcontra)
      subst this
      simp at hvid
  refine ⟨?_, hnone, ?_⟩
  · refine ⟨applyPatch db.fresh
      { password := some pw, passwordRecoveryToken := some none,
        passwordRecoveryRequestDate := some none } u, ?_, ?_, ?_, ?_⟩
    · rw [findById_updateUserWhere, hid]
      simp
    · simp [applyPatch, hashPassword, checkPassword]
    · simp [applyPatch]
    · simp [applyPatch]
  · intro pw2 now2 r h
    unfold recoverPassword at h
    rw [hnone] at h
    split at h <;> simp at h

/-- **C8.** An unauthenticated `sendPasswordRecoveryEmail` call returns the
one generic "if this address exists…" info notification whether or not a user
with the given email exists — runs differing only in the email's existence
are indistinguishable by the returned notification list; an authenticated
caller instead fails with `AlreadyLoggedInError`. -/
theorem sendPasswordRecovery_uniform (db : DB) (email : String) (req : Request) (now : Int) :
    (req.user = none → ∃ db', sendPasswordRecoveryEmail db email req now =
      .ok ([⟨"info", "If your email address exists in our database, you will receive a password recovery link at your email address in a few minutes."⟩], db')) ∧
    (∀ ctx, req.user = some ctx → sendPasswordRecoveryEmail db email req now =
      .error (.AlreadyLoggedInError "Oups, you are already logged in!")) := by
  constructor
  · intro hanon
    unfold sendPasswordRecoveryEmail
    rw [hanon]
    cases hfe : findByEmail db email with
    | none => exact ⟨db, rfl⟩
    | some u => exact ⟨_, rfl⟩
  · intro ctx hauth
    unfold sendPasswordRecoveryEmail
    rw [hauth]

/-- **C9.** `confirmEmail` never raises: an unknown verification token
leaves the store untouched and yields exactly the rendered error
notification "This link is not valid!"; a known token clears the matched
user's `verificationToken` and sets `verified := true` (and yields the
success notification). -/
theorem confirmEmail_outcomes (db : DB) (tok : Nat) (u : UserRec) :
    (findByVerificationToken db tok = none →
      confirmEmail db tok = (db, [⟨"error", "This link is not valid!"⟩])) ∧
    (findByVerificationToken db tok = some u → findById db u._id = some u →
      ∃ u', findById (confirmEmail db tok).1 u._id = some u' ∧
        u'.verificationToken = none ∧ u'.verified = true ∧
        (confirmEmail db tok).2 = [⟨"success", "You are now verified!"⟩]) := by
  constructor
  · intro hnone
    unfold confirmEmail
    rw [hnone]
  · intro hsome hid
    unfold confirmEmail
    rw [hsome]
    refine ⟨applyPatch db.fresh
      { verified := some true, verificationToken := some none } u, ?_, ?_, ?_, rfl⟩
    · rw [findById_updateUserWhere, hid]
      simp
    · simp [applyPatch]
    · simp [applyPatch]

/-- The user `login` resolves the presented login string to: the user whose
email matches, else the user whose username matches. -/
def loginLookup (db : DB) (l : String) : Option UserRec :=
  match findByEmail db l with
  | some u => some u
  | none => findByUsername db l

/-- **C4.** When the login string matches no user, and equally when it
matches a user but the presented password fails the hash check, `login`
fails with the identical error: `NotFoundError("Wrong credentials!")` — the
two failure runs are indistinguishable by error kind and message. -/
theorem login_wrong_credentials_uniform (db : DB) (req : Request) (now : Int)
    (l pw : String)
    (h : ∀ u, loginLookup db l = some u → checkPassword pw u.password = false) :
    login db req l pw now = .error (.UserNotFound "Wrong credentials!") := by
  unfold login
  cases hfe : findByEmail db l with
  | some u =>
    have hu : checkPassword pw u.password = false := by
      apply h; unfold loginLookup; rw [hfe]
    simp [hfe, userSignByEmail, hu]
  | none =>
    cases hfu : findByUsername db l with
    | some u =>
      have hu : checkPassword pw u.password = false := by
        apply h; unfold loginLookup; rw [hfe, hfu]
      simp [hfe, hfu, userSignByUsername, hu]
    | none => simp [hfe, hfu]

theorem findById_generateToken (db : DB) (i : Nat) :
    findById (generateToken db).2 i = findById db i := rfl

theorem jobs_updateUserWhere (db : DB) (flt : UserRec → Bool) (p : UserPatch) :
    (updateUserWhere db flt p).jobs = db.jobs := rfl

/-- Shape of a successful `updateApply` run: the re-read record is the
patched matched record; on demotion the confirmation job is appended. -/
theorem updateApply_ok (db : DB) (ctx : AuthContext) (upd : UserUpdates)
    (vtokOpt : Option Nat) (u newU : UserRec) (ns : List Notification) (db' : DB)
    (hid : findById db ctx._id = some u)
    (hrun : updateApply db ctx upd vtokOpt = .ok (newU, ns, db')) :
    (∀ t, vtokOpt = some t →
      newU = applyPatch db.fresh
        { password := upd.password, email := upd.email, username := upd.username,
          verified := some false, verificationToken := some (some t) } u ∧
      db'.jobs = db.jobs ++ [confirmationJob newU.email (some t)]) ∧
    (vtokOpt = none →
      newU = applyPatch db.fresh
        { password := upd.password, email := upd.email, username := upd.username } u ∧
      db'.jobs = db.jobs) := by
  have hid2 : List.find? (fun v => v._id == ctx._id) db.users = some u := hid
  have hpred : (u._id == ctx._id) = true := by simpa using List.find?_some hid2
  constructor
  · rintro t rfl
    unfold updateApply at hrun
    split at hrun
    · exact absurd hrun (by simp)
    · dsimp only at hrun
      rw [findById_updateUserWhere, hid] at hrun
      simp only [Option.map_some', hpred, if_true] at hrun
      rw [Except.ok.injEq, Prod.mk.injEq, Prod.mk.injEq] at hrun
      obtain ⟨h1, _, h3⟩ := hrun
      subst h1
      subst h3
      exact ⟨rfl, by simp [enqueueJob, updateUserWhere]⟩
  · rintro rfl
    unfold updateApply at hrun
    split at hrun
    · exact absurd hrun (by simp)
    · dsimp only at hrun
      rw [findById_updateUserWhere, hid] at hrun
      simp only [Option.map_some', Option.map_none', hpred, if_true] at hrun
      rw [Except.ok.injEq, Prod.mk.injEq, Prod.mk.injEq] at hrun
      obtain ⟨h1, _, h3⟩ := hrun
      subst h1
      subst h3
      exact ⟨rfl, by simp [updateUserWhere]⟩

/-- A successful `updateUser` run goes through `updateApply`, with the fresh
verification token exactly when the bearer context is verified and the
update carries a truthy email. -/
theorem updateUser_ok_cases (db : DB) (req : Request) (ctx : AuthContext)
    (upd : UserUpdates) (now : Int) (res : UserRec × List Notification × DB)
    (hreq : req.user = some ctx)
    (hrun : updateUser db req upd now = .ok res) :
    ((ctx.verified && truthy upd.email) = true ∧
      updateApply (generateToken db).2 ctx upd (some (generateToken db).1) = .ok res) ∨
    ((ctx.verified && truthy upd.email) = false ∧
      updateApply db ctx upd none = .ok res) := by
  unfold updateUser at hrun
  rw [hreq] at hrun
  split at hrun
  next heq => exact absurd heq (by simp)
  next ctx2 heq =>
    rw [Option.some.injEq] at heq
    subst heq
    split at hrun
    · exact absurd hrun (by simp)
    · split at hrun
      · split at hrun
        · exact absurd hrun (by simp)
        · split at hrun
          · exact absurd hrun (by simp)
          · split at hrun
            next hcond => exact Or.inl ⟨hcond, hrun⟩
            next hcond => exact Or.inr ⟨by simpa using hcond, hrun⟩
      · split at hrun
        next hcond => exact Or.inl ⟨hcond, hrun⟩
        next hcond => exact Or.inr ⟨by simpa using hcond, hrun⟩

/-- **C6 (amended).** For every `UpdateMe` call by an authenticated,
verified user whose update *includes* a (truthy) email field — whether or
not its value differs from the current address — the resulting user record
has `verified = false` and a freshly generated `verificationToken`, and a
verification notification job is enqueued; when the update carries no
(truthy) email field, or the bearer context is not verified, `verified` is
left unchanged. -/
theorem updateMe_email_field_demotes (db : DB) (req : Request) (ctx : AuthContext)
    (upd : UserUpdates) (now : Int) (u newU : UserRec) (ns : List Notification)
    (db' : DB)
    (hreq : req.user = some ctx)
    (hid : findById db ctx._id = some u)
    (hrun : updateUser db req upd now = .ok (newU, ns, db')) :
    (ctx.verified = true → truthy upd.email = true →
      newU.verified = false ∧ ∃ t, newU.verificationToken = some t ∧
        db'.jobs = db.jobs ++ [confirmationJob newU.email (some t)]) ∧
    (truthy upd.email = false → newU.verified = u.verified) ∧
    (ctx.verified = false → newU.verified = u.verified) := by
  rcases updateUser_ok_cases db req ctx upd now _ hreq hrun with
    ⟨hcond, happly⟩ | ⟨hcond, happly⟩
  · have hid1 : findById (generateToken db).2 ctx._id = some u := hid
    obtain ⟨hsome, _⟩ := updateApply_ok _ ctx upd _ u newU ns db' hid1 happly
    obtain ⟨hnew, hjobs⟩ := hsome (generateToken db).1 rfl
    rw [Bool.and_eq_true] at hcond
    refine ⟨?_, ?_, ?_⟩
    · intro _ _
      refine ⟨by rw [hnew]; simp [applyPatch], (generateToken db).1, ?_, ?_⟩
      · rw [hnew]; simp [applyPatch]
      · simpa [generateToken] using hjobs
    · intro hfalse; rw [hcond.2] at hfalse; cases hfalse
    · intro hfalse; rw [hcond.1] at hfalse; cases hfalse
  · obtain ⟨_, hnonecase⟩ := updateApply_ok db ctx upd none u newU ns db' hid happly
    obtain ⟨hnew, hjobs⟩ := hnonecase rfl
    rw [Bool.and_eq_false_iff] at hcond
    refine ⟨?_, ?_, ?_⟩
    · intro hv he
      rcases hcond with h | h
      · rw [hv] at h; cases h
      · rw [he] at h; cases h
    · intro _; rw [hnew]; simp [applyPatch]
    · intro _; rw [hnew]; simp [applyPatch]

/-- **C7.** An `UpdateMe` password change with `password ≠ previousPassword`
and a previous password that fails the stored-hash check fails with
`WrongPasswordError` and writes nothing — the store is returned untouched,
so the old password still authenticates through `login`. -/
theorem updateMe_wrong_previous_password (db : DB) (req req2 : Request)
    (ctx : AuthContext) (upd : UserUpdates) (now now2 : Int) (u : UserRec)
    (oldPw : String)
    (hreq : req.user = some ctx)
    (hsess : sessionIsValid db ctx._id req.refreshTokenCookie now = true)
    (hpw : truthy upd.password = true)
    (hneq : upd.password ≠ upd.previousPassword)
    (hbad : isPasswordValidByEmail db ctx.email upd.previousPassword = false) :
    updateUser db req upd now =
      .error (.WrongPasswordError "Your previous password is wrong!") ∧
    (findByEmail db ctx.email = some u → checkPassword oldPw u.password = true →
      ∃ r, login db req2 ctx.email oldPw now2 = .ok r) := by
  have hne : (upd.password == upd.previousPassword) = false :=
    beq_eq_false_iff_ne.mpr hneq
  constructor
  · unfold updateUser
    rw [hreq]
    simp [hsess, hpw, hne, hbad]
  · intro hfe hck
    unfold login userSignByEmail
    rw [hfe]
    simp [hck]

/-- **C10.** When the requested new password equals the supplied
`previousPassword` field, `updateUser` skips the whole check block: no
previous-password verification (so no `WrongPasswordError` regardless of
whether the value matches the stored credential) and no 8-character length
policy — the call succeeds and the stored password becomes the supplied
value. -/
theorem updateMe_equal_previous_password_no_check (db : DB) (req : Request)
    (ctx : AuthContext) (p : String) (now : Int) (u : UserRec)
    (hreq : req.user = some ctx)
    (hsess : sessionIsValid db ctx._id req.refreshTokenCookie now = true)
    (hnonempty : p ≠ "")
    (hid : findById db ctx._id = some u) :
    ∃ u' ns db',
      updateUser db req { password := some p, previousPassword := some p } now
        = .ok (u', ns, db') ∧
      findById db' ctx._id = some u' ∧ checkPassword p u'.password = true := by
  have hid2 : List.find? (fun v => v._id == ctx._id) db.users = some u := hid
  have hpred : (u._id == ctx._id) = true := by simpa using List.find?_some hid2
  unfold updateUser updateApply
  rw [hreq]
  simp only [hsess, Bool.not_true, Bool.false_eq_true, if_false]
  simp only [truthy, beq_self_eq_true, Bool.not_true, Bool.and_false,
    Bool.false_eq_true, if_false]
  have hconf : dbUpdateConflict db ctx._id none none = none := by
    unfold dbUpdateConflict; simp
  rw [hconf]
  dsimp only
  rw [findById_updateUserWhere, hid]
  simp only [Option.map_some', hpred, if_true]
  refine ⟨_, _, _, rfl, ?_, ?_⟩
  · rw [findById_updateUserWhere, hid]
    simp only [Option.map_some', hpred, if_true]
  · simp [applyPatch, hashPassword, checkPassword]

/-- **C5 counterexample.** Two persistence uniqueness failures carrying the
same structured colliding-field identifier (`username`) but different
free-text wording are translated to *different* domain errors by the
Register/UpdateMe catch blocks: the translation inspects only the message
text, not the field identifier. -/
theorem constraint_translation_ignores_field_cex :
    (DupKeyFailure.mk "username" (mongoDupMessage "username")).field =
      (DupKeyFailure.mk "username" "unique index users_username_key violated").field ∧
    translateCreateError (DupKeyFailure.mk "username" (mongoDupMessage "username")).message =
      .UsernameAlreadyExistsError "Username already exists" ∧
    translateCreateError
        (DupKeyFailure.mk "username" "unique index users_username_key violated").message =
      .UserValidationError "unique index users_username_key violated" ∧
    translateUpdateError
        (DupKeyFailure.mk "username" "unique index users_username_key violated").message =
      .UserValidationError "unique index users_username_key violated" := by
  decide

/-- **C5 (amended).** The Register/UpdateMe translation of persistence
uniqueness failures is determined by the free text of the failure message
alone (failures with identical messages map to identical domain errors, and
the mapping is: `UsernameAlreadyExistsError` exactly when the message
contains both "username" and "duplicate key", else
`EmailAlreadyExistsError` when it contains both "email" and "duplicate
key"); it does not consult the structured colliding-field identifier. -/
theorem constraint_translation_by_message (e1 e2 : DupKeyFailure)
    (hmsg : e1.message = e2.message) :
    (translateCreateError e1.message = translateCreateError e2.message ∧
     translateUpdateError e1.message = translateUpdateError e2.message) ∧
    (strContains e1.message "username" = true →
      strContains e1.message "duplicate key" = true →
      translateCreateError e1.message = .UsernameAlreadyExistsError "Username already exists" ∧
      translateUpdateError e1.message = .UsernameAlreadyExistsError "Username already exists") ∧
    (strContains e1.message "username" = false →
      strContains e1.message "email" = true →
      strContains e1.message "duplicate key" = true →
      translateCreateError e1.message = .EmailAlreadyExistsError "Email already exists" ∧
      translateUpdateError e1.message = .EmailAlreadyExistsError "Email already exists") := by
  refine ⟨⟨by rw [hmsg], by rw [hmsg]⟩, ?_, ?_⟩
  · intro h1 h2
    constructor <;> simp [translateCreateError, translateUpdateError, h1, h2]
  · intro h1 h2 h3
    constructor <;> simp [translateCreateError, translateUpdateError, h1, h2, h3]

/-! ## Refresh-token rotation: freshness machinery (C1) -/

/-- One orchestrator protocol invocation, as a state transition; error runs
leave the store untouched and are therefore no steps. -/
inductive Step : DB → DB → Prop where
  | register {db db' : DB} {u : NewUser} {ns : List Notification} :
      createUser db u = .ok (ns, db') → Step db db'
  | loginStep {db db' : DB} {req : Request} {l p : String} {now : Int}
      {r : SignedPayload × Nat} :
      login db req l p now = .ok (r, db') → Step db db'
  | refreshStep {db db' : DB} {req : Request} {now : Int} {r : SignedPayload × Nat} :
      refreshTokens db req now = .ok (r, db') → Step db db'
  | updateMeStep {db db' : DB} {req : Request} {upd : UserUpdates} {now : Int}
      {a : UserRec} {ns : List Notification} :
      updateUser db req upd now = .ok (a, ns, db') → Step db db'
  | deleteMeStep {db db' : DB} {p : String} {req : Request} {ns : List Notification} :
      deleteUser db p req = .ok (ns, db') → Step db db'
  | recoverStep {db db' : DB} {p : String} {t : Nat} {now : Int} {ns : List Notification} :
      recoverPassword db p t now = .ok (ns, db') → Step db db'
  | confirmStep {db db' : DB} {t : Nat} {ns : List Notification} :
      confirmEmail db t = (db', ns) → Step db db'
  | sendRecoveryStep {db db' : DB} {e : String} {req : Request} {now : Int}
      {ns : List Notification} :
      sendPasswordRecoveryEmail db e req now = .ok (ns, db') → Step db db'
  | resendStep {db db' : DB} {req : Request} {ns : List Notification} :
      resendConfirmationEmail db req = .ok (ns, db') → Step db db'

/-- States reachable by any sequence of protocol invocations. -/
def Reachable : DB → DB → Prop := Relation.ReflTransGen Step

/-- Session-store evolution bound: the freshness counter never decreases,
and every session token either existed before or was issued at or after the
old counter value. -/
def SessEvolve (db db' : DB) : Prop :=
  db.fresh ≤ db'.fresh ∧
  ∀ s ∈ db'.sessions,
    (∃ s0 ∈ db.sessions, s0.refreshToken = s.refreshToken) ∨ db.fresh ≤ s.refreshToken

theorem sessEvolve_refl (db : DB) : SessEvolve db db :=
  ⟨le_refl _, fun s hs => Or.inl ⟨s, hs, rfl⟩⟩

theorem sessEvolve_trans {a b c : DB} (hab : SessEvolve a b) (hbc : SessEvolve b c) :
    SessEvolve a c := by
  obtain ⟨hf1, hs1⟩ := hab
  obtain ⟨hf2, hs2⟩ := hbc
  refine ⟨le_trans hf1 hf2, fun s hs => ?_⟩
  rcases hs2 s hs with ⟨s0, h0, heq⟩ | hge
  · rcases hs1 s0 h0 with ⟨s1, h1, heq1⟩ | hge0
    · exact Or.inl ⟨s1, h1, heq1.trans heq⟩
    · exact Or.inr (heq ▸ hge0)
  · exact Or.inr (le_trans hf1 hge)

theorem sessEvolve_of_eq {db db' : DB} (hs : db'.sessions = db.sessions)
    (hf : db.fresh ≤ db'.fresh) : SessEvolve db db' :=
  ⟨hf, fun s hmem => Or.inl ⟨s, by rw [hs] at hmem; exact hmem, rfl⟩⟩

theorem sessEvolve_removeSession (db : DB) (uid tok : Nat) :
    SessEvolve db (removeSession db uid tok) :=
  ⟨le_refl _, fun s hmem => Or.inl ⟨s, List.mem_of_mem_filter hmem, rfl⟩⟩

theorem sessEvolve_removeOutdated (db : DB) (uid : Nat) (now : Int) :
    SessEvolve db (removeOutdatedSessions db uid now) :=
  ⟨le_refl _, fun s hmem => Or.inl ⟨s, List.mem_of_mem_filter hmem, rfl⟩⟩

theorem sessEvolve_createSession (db : DB) (uid : Nat) (now : Int) :
    SessEvolve db (createSession db uid now).2 := by
  refine ⟨Nat.le_succ _, fun s hmem => ?_⟩
  rcases List.mem_append.mp hmem with h | h
  · exact Or.inl ⟨s, h, rfl⟩
  · rw [List.mem_singleton] at h
    subst h
    exact Or.inr (le_refl _)

theorem sessEvolve_updateSession {db db' : DB} {uid tok : Nat} {now : Int}
    {s : SessionRec} (h : updateSession db uid tok now = some (s, db')) :
    SessEvolve db db' := by
  unfold updateSession at h
  split at h
  · rw [Option.some.injEq, Prod.mk.injEq] at h
    obtain ⟨_, h2⟩ := h
    subst h2
    refine ⟨Nat.le_succ _, fun x hmem => ?_⟩
    rcases List.mem_append.mp hmem with hx | hx
    · exact Or.inl ⟨x, List.mem_of_mem_filter hx, rfl⟩
    · rw [List.mem_singleton] at hx
      subst hx
      exact Or.inr (le_refl _)
  · cases h

theorem dbCreateUser_shape {db db' : DB} {un em pw : String} {vtok : Nat}
    {u : UserRec} (h : dbCreateUser db un em pw vtok = .ok (u, db')) :
    db'.sessions = db.sessions ∧ db.fresh ≤ db'.fresh := by
  unfold dbCreateUser at h
  split at h
  · cases h
  · split at h
    · cases h
    · rw [Except.ok.injEq, Prod.mk.injEq] at h
      obtain ⟨_, h2⟩ := h
      subst h2
      exact ⟨rfl, Nat.le_add_right _ 2⟩

theorem updateApply_shape {db db' : DB} {ctx : AuthContext} {upd : UserUpdates}
    {vtokOpt : Option Nat} {newU : UserRec} {ns : List Notification}
    (h : updateApply db ctx upd vtokOpt = .ok (newU, ns, db')) :
    db'.sessions = db.sessions ∧ db.fresh ≤ db'.fresh := by
  unfold updateApply at h
  split at h
  · cases h
  · dsimp only at h
    split at h
    · cases h
    · split at h
      all_goals rw [Except.ok.injEq, Prod.mk.injEq, Prod.mk.injEq] at h
      all_goals obtain ⟨_, _, h3⟩ := h
      all_goals subst h3
      all_goals exact ⟨rfl, Nat.le_succ _⟩

/-- Every protocol step satisfies the session-evolution bound. -/
theorem step_sessEvolve {db db' : DB} (h : Step db db') : SessEvolve db db' := by
  cases h with
  | register hrun =>
    unfold createUser at hrun
    dsimp only at hrun
    split at hrun
    · cases hrun
    · split at hrun
      · cases hrun
      · split at hrun
        · cases hrun
        · split at hrun
          · cases hrun
          next newU db1 heq =>
            rw [Except.ok.injEq, Prod.mk.injEq] at hrun
            obtain ⟨_, h2⟩ := hrun
            subst h2
            obtain ⟨hs, hf⟩ := dbCreateUser_shape heq
            exact sessEvolve_of_eq hs (le_trans (Nat.le_succ _) hf)
  | loginStep hrun =>
    unfold login at hrun
    split at hrun
    · cases hrun
    · dsimp only at hrun
      rw [Except.ok.injEq, Prod.mk.injEq] at hrun
      obtain ⟨_, h2⟩ := hrun
      subst h2
      split
      · exact sessEvolve_trans (sessEvolve_removeSession _ _ _)
          (sessEvolve_trans (sessEvolve_removeOutdated _ _ _)
            (sessEvolve_createSession _ _ _))
      · exact sessEvolve_trans (sessEvolve_removeOutdated _ _ _)
          (sessEvolve_createSession _ _ _)
  | refreshStep hrun =>
    unfold refreshTokens at hrun
    split at hrun
    · cases hrun
    · split at hrun
      · split at hrun
        next s1 db1 heq =>
          rw [Except.ok.injEq, Prod.mk.injEq] at hrun
          obtain ⟨_, h2⟩ := hrun
          subst h2
          exact sessEvolve_updateSession heq
        next heq => cases hrun
      · cases hrun
  | updateMeStep hrun =>
    unfold updateUser at hrun
    split at hrun
    · cases hrun
    · split at hrun
      · cases hrun
      · split at hrun
        · split at hrun
          · cases hrun
          · split at hrun
            · cases hrun
            · split at hrun
              · obtain ⟨hs, hf⟩ := updateApply_shape hrun
                exact sessEvolve_of_eq hs (le_trans (Nat.le_succ _) hf)
              · obtain ⟨hs, hf⟩ := updateApply_shape hrun
                exact sessEvolve_of_eq hs hf
        · split at hrun
          · obtain ⟨hs, hf⟩ := updateApply_shape hrun
            exact sessEvolve_of_eq hs (le_trans (Nat.le_succ _) hf)
          · obtain ⟨hs, hf⟩ := updateApply_shape hrun
            exact sessEvolve_of_eq hs hf
  | deleteMeStep hrun =>
    unfold deleteUser at hrun
    split at hrun
    · cases hrun
    · split at hrun
      · cases hrun
      · rw [Except.ok.injEq, Prod.mk.injEq] at hrun
        obtain ⟨_, h2⟩ := hrun
        subst h2
        exact sessEvolve_of_eq rfl (le_refl _)
  | recoverStep hrun =>
    unfold recoverPassword at hrun
    split at hrun
    · cases hrun
    · split at hrun
      · cases hrun
      · split at hrun
        all_goals dsimp only at hrun
        all_goals split at hrun
        all_goals first
          | (rw [Except.ok.injEq, Prod.mk.injEq] at hrun
             obtain ⟨_, h2⟩ := hrun
             subst h2
             exact sessEvolve_of_eq rfl (Nat.le_succ _))
          | cases hrun
  | confirmStep hrun =>
    unfold confirmEmail at hrun
    split at hrun
    · rw [Prod.mk.injEq] at hrun
      obtain ⟨h1, _⟩ := hrun
      subst h1
      exact sessEvolve_refl _
    · rw [Prod.mk.injEq] at hrun
      obtain ⟨h1, _⟩ := hrun
      subst h1
      exact sessEvolve_of_eq rfl (Nat.le_succ _)
  | sendRecoveryStep hrun =>
    unfold sendPasswordRecoveryEmail at hrun
    split at hrun
    · cases hrun
    · split at hrun
      · rw [Except.ok.injEq, Prod.mk.injEq] at hrun
        obtain ⟨_, h2⟩ := hrun
        subst h2
        exact sessEvolve_refl _
      · dsimp only at hrun
        rw [Except.ok.injEq, Prod.mk.injEq] at hrun
        obtain ⟨_, h2⟩ := hrun
        subst h2
        exact sessEvolve_of_eq rfl (le_trans (Nat.le_succ _) (Nat.le_succ _))
  | resendStep hrun =>
    unfold resendConfirmationEmail at hrun
    split at hrun
    · cases hrun
    · split at hrun
      · cases hrun
      · split at hrun
        · cases hrun
        · rw [Except.ok.injEq, Prod.mk.injEq] at hrun
          obtain ⟨_, h2⟩ := hrun
          subst h2
          exact sessEvolve_of_eq rfl (le_refl _)

theorem reachable_sessEvolve {db db' : DB} (h : Reachable db db') : SessEvolve db db' := by
  induction h with
  | refl => exact sessEvolve_refl _
  | tail _ hstep ih => exact sessEvolve_trans ih (step_sessEvolve hstep)

/-- A token value that no live session carries and that the freshness
counter has moved past: no later state can revive it. -/
def TokenDead (t : Nat) (db : DB) : Prop :=
  t < db.fresh ∧ ∀ s ∈ db.sessions, s.refreshToken ≠ t

theorem tokenDead_mono {t : Nat} {db db' : DB} (hd : TokenDead t db)
    (he : SessEvolve db db') : TokenDead t db' := by
  obtain ⟨hlt, hno⟩ := hd
  obtain ⟨hf, hs⟩ := he
  refine ⟨lt_of_lt_of_le hlt hf, fun s hmem => ?_⟩
  rcases hs s hmem with ⟨s0, h0, heq⟩ | hge
  · rw [← heq]
    exact hno s0 h0
  · omega

/-- Well-formedness of the session store: every live refresh token was
issued below the freshness counter, and no two sessions share a token. -/
def SessWF (db : DB) : Prop :=
  (∀ s ∈ db.sessions, s.refreshToken < db.fresh) ∧
  (db.sessions.map (fun s => s.refreshToken)).Nodup

/-- A successful refresh run that presented cookie `t` leaves `t` dead: no
session carries it any more and the freshness counter has moved past it. -/
theorem refresh_kills_token {db db' : DB} {req : Request} {now : Int} {t : Nat}
    {r : SignedPayload × Nat}
    (hwf : SessWF db)
    (hcookie : req.refreshTokenCookie = some t)
    (hrun : refreshTokens db req now = .ok (r, db')) :
    TokenDead t db' := by
  obtain ⟨hbound, hnodup⟩ := hwf
  unfold refreshTokens getUserAndSessionFromRefreshToken at hrun
  rw [hcookie] at hrun
  dsimp only at hrun
  cases hfind : List.find?
      (fun s => s.refreshToken == t && decide (now < s.expiryDate)) db.sessions with
  | none =>
    rw [hfind] at hrun
    cases hrun
  | some s =>
    rw [hfind] at hrun
    dsimp only at hrun
    have hmem : s ∈ db.sessions := List.mem_of_find?_eq_some hfind
    have hpred := List.find?_some hfind
    simp only [Bool.and_eq_true, beq_iff_eq, decide_eq_true_eq] at hpred
    have htok : s.refreshToken = t := hpred.1
    cases hfid : findById db s.userId with
    | none =>
      rw [hfid] at hrun
      cases hrun
    | some u =>
      rw [hfid] at hrun
      dsimp only at hrun
      have huid : u._id = s.userId := by
        have h2 : List.find? (fun v => v._id == s.userId) db.users = some u := hfid
        simpa using List.find?_some h2
      split at hrun
      · unfold updateSession at hrun
        rw [if_pos] at hrun
        · dsimp only at hrun
          rw [Except.ok.injEq, Prod.mk.injEq] at hrun
          obtain ⟨_, h2⟩ := hrun
          subst h2
          constructor
          · have := hbound s hmem
            simp only []
            omega
          · intro x hx
            rcases List.mem_append.mp hx with hx | hx
            · rw [List.mem_filter] at hx
              obtain ⟨hxmem, hxpred⟩ := hx
              intro hxt
              have hxs : x = s :=
                List.inj_on_of_nodup_map hnodup hxmem hmem (by rw [hxt, htok])
              subst hxs
              rw [huid] at hxpred
              simp at hxpred
            · rw [List.mem_singleton] at hx
              subst hx
              have := hbound s hmem
              simp only []
              omega
        · rw [List.any_eq_true]
          exact ⟨s, hmem, by rw [huid]; simp⟩
      · cases hrun

/-- **C1.** Once the refresh protocol has rotated a session's refresh token,
the previous token is never again accepted in any reachable later state:
`isValid` is `false` for it (for every user and at every time), and
presenting it to the refresh protocol fails with
`NotFoundError("Please login!")`. -/
theorem refresh_rotation_invalidates_old_token (db db' dbn : DB) (req : Request)
    (now : Int) (t : Nat) (r : SignedPayload × Nat)
    (hwf : SessWF db)
    (hcookie : req.refreshTokenCookie = some t)
    (hrun : refreshTokens db req now = .ok (r, db'))
    (hreach : Reachable db' dbn) :
    (∀ uid now2, sessionIsValid dbn uid (some t) now2 = false) ∧
    (∀ req2 now2, req2.refreshTokenCookie = some t →
      refreshTokens dbn req2 now2 = .error (.UserNotFound "Please login!")) := by
  have hdead : TokenDead t dbn :=
    tokenDead_mono (refresh_kills_token hwf hcookie hrun) (reachable_sessEvolve hreach)
  obtain ⟨hlt, hno⟩ := hdead
  constructor
  · intro uid now2
    unfold sessionIsValid
    rw [List.any_eq_false]
    intro x hx
    simp only [Bool.and_eq_true, beq_iff_eq, decide_eq_true_eq, not_and]
    intro hand
    exact absurd hand.2 (hno x hx)
  · intro req2 now2 hc2
    unfold refreshTokens getUserAndSessionFromRefreshToken
    rw [hc2]
    dsimp only
    have hfind : List.find?
        (fun s => s.refreshToken == t && decide (now2 < s.expiryDate)) dbn.sessions
        = none := by
      rw [List.find?_eq_none]
      intro x hx
      simp only [Bool.and_eq_true, beq_iff_eq, decide_eq_true_eq, not_and]
      intro hxt
      exact absurd hxt (hno x hx)
    rw [hfind]

/-! ## Concrete fixtures and witnesses -/

/-- A verified user with a live session (token 5). -/
def wUser : UserRec := ⟨0, "alice5", "a@a.a", ⟨9, "password1"⟩, true, none, none, none⟩

def wCtx : AuthContext := ⟨0, "alice5", "a@a.a", true⟩

def wDB : DB := ⟨[wUser], [⟨0, 5, 1000⟩], 6, []⟩

def wReq : Request := ⟨some wCtx, some 5⟩

def wEmptyDB : DB := ⟨[], [], 0, []⟩

/-- A user mid-password-recovery: token 3, requested at time 0. -/
def w2u : UserRec := ⟨0, "alice5", "a@a.a", ⟨9, "password1"⟩, false, none, some 3, some 0⟩

def w2db : DB := ⟨[w2u], [], 6, []⟩

def w2db' : DB :=
  updateUserWhere w2db (fun v => v._id == w2u._id)
    { password := some "newpassword", passwordRecoveryToken := some none,
      passwordRecoveryRequestDate := some none }

/-- An unverified user holding verification token 3. -/
def w9u : UserRec := ⟨0, "alice5", "a@a.a", ⟨9, "password1"⟩, false, some 3, none, none⟩

def w9db : DB := ⟨[w9u], [], 6, []⟩

/-- The store after the refresh protocol rotated session token 5 into 6. -/
def w1db' : DB := ⟨[wUser], [⟨0, 6, 604800000⟩], 7, []⟩

def w1res : SignedPayload × Nat := (⟨wUser, 3600000⟩, 6)

/-- The record, notifications and store produced by an UpdateMe carrying the
fresh email `b@b.b` against `wDB`. -/
def c6newU : UserRec := ⟨0, "alice5", "b@b.b", ⟨9, "password1"⟩, false, some 6, none, none⟩

def c6ns : List Notification :=
  [⟨"success", "User information updated!"⟩,
   ⟨"info", "You will receive a confirmation link at your email address in a few minutes."⟩]

def c6db' : DB :=
  ⟨[c6newU], [⟨0, 5, 1000⟩], 8, [⟨"b@b.b", "Activate your account", some 6⟩]⟩

/-- The full result of an UpdateMe carrying the *unchanged* email `a@a.a`
against `wDB`. -/
def c6cexRes : UserRec × List Notification × DB :=
  (⟨0, "alice5", "a@a.a", ⟨9, "password1"⟩, false, some 6, none, none⟩,
   c6ns,
   ⟨[⟨0, "alice5", "a@a.a", ⟨9, "password1"⟩, false, some 6, none, none⟩],
    [⟨0, 5, 1000⟩], 8, [⟨"a@a.a", "Activate your account", some 6⟩]⟩)

/-- **C6 counterexample.** An `UpdateMe` by a verified user whose update
carries the email field set to the *current* address — the email does not
change — still demotes `verified` to `false`: the demotion is triggered by
the presence of the email field, not by a change of value. -/
theorem updateMe_unchanged_email_still_demotes_cex :
    wUser.email = "a@a.a" ∧ wUser.verified = true ∧ findById wDB 0 = some wUser ∧
    updateUser wDB wReq { email := some "a@a.a" } 0 = .ok c6cexRes ∧
    c6cexRes.1.email = "a@a.a" ∧ c6cexRes.1.verified = false := by
  decide

/-- Witness for C1 at the concrete rotated store `w1db'`. -/
theorem refresh_rotation_invalidates_old_token_witness :
    sessionIsValid w1db' 0 (some 5) 999 = false ∧
    refreshTokens w1db' ⟨none, some 5⟩ 999 = .error (.UserNotFound "Please login!") :=
  have h := refresh_rotation_invalidates_old_token wDB w1db' w1db' wReq 0 5 w1res
    ⟨by decide, by decide⟩ rfl (by decide) Relation.ReflTransGen.refl
  ⟨h.1 0 999, h.2 ⟨none, some 5⟩ 999 rfl⟩

/-- Witness for C2: accepted strictly inside the hour, rejected after. -/
theorem recoverPassword_window_witness :
    recoverPassword w2db "newpassword" 3 1000 =
      .ok ([⟨"success", "Your password is updated!"⟩],
        updateUserWhere w2db (fun v => v._id == w2u._id)
          { password := some "newpassword", passwordRecoveryToken := some none,
            passwordRecoveryRequestDate := some none }) ∧
    recoverPassword w2db "newpassword" 3 9999999 =
      .error (.UpdatePasswordTooLateError "This link has expired, please ask a new one.") :=
  ⟨(recoverPassword_window w2db "newpassword" 3 1000 0 w2u (by decide) (by decide)
      (by decide) (by decide)).1 (by decide),
   (recoverPassword_window w2db "newpassword" 3 9999999 0 w2u (by decide) (by decide)
      (by decide) (by decide)).2 (by decide)⟩

/-- Witness for C3 at the concrete recovery run. -/
theorem recoverPassword_single_use_witness :
    (∃ u', findById w2db' 0 = some u' ∧ checkPassword "newpassword" u'.password = true ∧
      u'.passwordRecoveryToken = none ∧ u'.passwordRecoveryRequestDate = none) ∧
    findByRecoveryToken w2db' 3 = none ∧
    (∀ pw2 now2 r, recoverPassword w2db' pw2 3 now2 ≠ .ok r) :=
  recoverPassword_single_use w2db w2db' "newpassword" 3 1000 w2u
    [⟨"success", "Your password is updated!"⟩]
    (by decide) (by decide) (by decide) (by decide)

/-- Witness for C4: unknown login string and known string with a wrong
password yield the identical error. -/
theorem login_wrong_credentials_uniform_witness :
    login wEmptyDB ⟨none, none⟩ "ghost" "password1" 0 =
      .error (.UserNotFound "Wrong credentials!") ∧
    login wDB ⟨none, none⟩ "a@a.a" "wrongpassword" 0 =
      .error (.UserNotFound "Wrong credentials!") :=
  ⟨login_wrong_credentials_uniform wEmptyDB ⟨none, none⟩ 0 "ghost" "password1"
    (by
      intro u hu
      rw [show loginLookup wEmptyDB "ghost" = none from rfl] at hu
      cases hu),
   login_wrong_credentials_uniform wDB ⟨none, none⟩ 0 "a@a.a" "wrongpassword"
    (by
      intro u hu
      rw [show loginLookup wDB "a@a.a" = some wUser from rfl, Option.some.injEq] at hu
      subst hu
      decide)⟩

/-- Witness for the amended C5 at a MongoDB-worded duplicate-key message. -/
theorem constraint_translation_by_message_witness :
    translateCreateError (mongoDupMessage "username") =
      .UsernameAlreadyExistsError "Username already exists" ∧
    translateUpdateError (mongoDupMessage "username") =
      .UsernameAlreadyExistsError "Username already exists" :=
  (constraint_translation_by_message ⟨"username", mongoDupMessage "username"⟩
    ⟨"u", mongoDupMessage "username"⟩ rfl).2.1 (by decide) (by decide)

/-- Witness for the amended C6 at a concrete email-changing update. -/
theorem updateMe_email_field_demotes_witness :
    c6newU.verified = false ∧ ∃ t, c6newU.verificationToken = some t ∧
      c6db'.jobs = wDB.jobs ++ [confirmationJob c6newU.email (some t)] :=
  (updateMe_email_field_demotes wDB wReq wCtx { email := some "b@b.b" } 0 wUser
    c6newU c6ns c6db' rfl (by decide) (by decide)).1 rfl (by decide)

/-- Witness for C7 at a concrete wrong previous password. -/
theorem updateMe_wrong_previous_password_witness :
    updateUser wDB wReq
      { password := some "newpassword1", previousPassword := some "wrongpassword" } 0 =
      .error (.WrongPasswordError "Your previous password is wrong!") ∧
    ∃ r, login wDB ⟨none, none⟩ "a@a.a" "password1" 50 = .ok r :=
  have h := updateMe_wrong_previous_password wDB wReq ⟨none, none⟩ wCtx
    { password := some "newpassword1", previousPassword := some "wrongpassword" }
    0 50 wUser "password1" rfl (by decide) (by decide) (by decide) (by decide)
  ⟨h.1, h.2 (by decide) (by decide)⟩

/-- Witness for C8: the generic notification for an existing and a missing
email alike, and `AlreadyLoggedInError` for an authenticated caller. -/
theorem sendPasswordRecovery_uniform_witness :
    (∃ db', sendPasswordRecoveryEmail wDB "a@a.a" ⟨none, none⟩ 42 =
      .ok ([⟨"info", "If your email address exists in our database, you will receive a password recovery link at your email address in a few minutes."⟩], db')) ∧
    (∃ db', sendPasswordRecoveryEmail wDB "ghost@nowhere.io" ⟨none, none⟩ 42 =
      .ok ([⟨"info", "If your email address exists in our database, you will receive a password recovery link at your email address in a few minutes."⟩], db')) ∧
    sendPasswordRecoveryEmail wDB "a@a.a" wReq 42 =
      .error (.AlreadyLoggedInError "Oups, you are already logged in!") :=
  ⟨(sendPasswordRecovery_uniform wDB "a@a.a" ⟨none, none⟩ 42).1 rfl,
   (sendPasswordRecovery_uniform wDB "ghost@nowhere.io" ⟨none, none⟩ 42).1 rfl,
   (sendPasswordRecovery_uniform wDB "a@a.a" wReq 42).2 wCtx rfl⟩

/-- Witness for C9: an unknown and a known verification token. -/
theorem confirmEmail_outcomes_witness :
    confirmEmail w9db 99 = (w9db, [⟨"error", "This link is not valid!"⟩]) ∧
    (∃ u', findById (confirmEmail w9db 3).1 0 = some u' ∧
      u'.verificationToken = none ∧ u'.verified = true ∧
      (confirmEmail w9db 3).2 = [⟨"success", "You are now verified!"⟩]) :=
  ⟨(confirmEmail_outcomes w9db 99 w9u).1 (by decide),
   (confirmEmail_outcomes w9db 3 w9u).2 (by decide) (by decide)⟩

/-- Witness for C10 at a 5-character password equal to a `previousPassword`
that is not the stored credential. -/
theorem updateMe_equal_previous_password_no_check_witness :
    ∃ u' ns db',
      updateUser wDB wReq { password := some "short", previousPassword := some "short" } 0
        = .ok (u', ns, db') ∧
      findById db' 0 = some u' ∧ checkPassword "short" u'.password = true :=
  updateMe_equal_previous_password_no_check wDB wReq wCtx "short" 0 wUser
    rfl (by decide) (by decide) (by decide)

end AuthService
